import Mathlib

/-!
Shallow embedding of the constraint-elimination engine of
`are_you_the_one.py` (the "Are You The One?" feasible-matchup tracker),
together with theorems settling the spec's claims about it.

The engine state `Matrix._matrix` is a numpy array of rows; each row is a
permutation of `0..N-1` where position `i` holds the index of the girl
matched with guy `i`.  Rows are modelled as `List Nat` and the array as a
`List` of rows.  Python failures (assert, TypeError, NotImplementedError)
are modelled by `Option`: `none` means the call raises.
-/

namespace AYTO

/-- Row of the feasibility matrix: position `i` holds the index of the
group-B member matched with group-A member `i` (numpy `int8` entries are
modelled as `Nat`). -/
abbrev Row := List Nat

/-- State of `Matrix._matrix`: the list of surviving rows. -/
abbrev Mat := List Row

/-- Embeds the dataclass `Contestant`: name, sex, gender preference and the
stable integer index. -/
structure Contestant where
  name : String
  sex : String
  gender_preference : String
  idx : Nat
  deriving DecidableEq

/-- Embeds `Contestant.__post_init__`: `true` exactly when both asserts on
`sex` and `gender_preference` pass. -/
def Contestant.post_init_ok (c : Contestant) : Bool :=
  (c.sex == "Male" || c.sex == "Female") &&
    (c.gender_preference == "Male" || c.gender_preference == "Female" ||
      c.gender_preference == "Both")

/-- Embeds the `Guy` constructor: sex is fixed to `"Male"` and the gender
preference defaults to `"Female"`. -/
def Guy (idx : Nat) (name : String)
    (gender_preference : String := "Female") : Contestant :=
  ⟨name, "Male", gender_preference, idx⟩

/-- Embeds the `Girl` constructor: sex is fixed to `"Female"` and the gender
preference defaults to `"Male"`. -/
def Girl (idx : Nat) (name : String)
    (gender_preference : String := "Male") : Contestant :=
  ⟨name, "Female", gender_preference, idx⟩

/-- Possible right-hand sides of `Contestant.__eq__`: a Python `str`, an
object carrying a `name` attribute (a `Contestant`), or an object with
neither (`bare`). -/
inductive PyValue where
  | ofStr (s : String)
  | ofContestant (c : Contestant)
  | bare
  deriving DecidableEq

/-- Embeds `Contestant.__eq__`: a string is compared against `self.name`, an
object with a `name` attribute is compared name-to-name, and anything else
raises `TypeError` (modelled as `none`). -/
def Contestant.eq (c : Contestant) : PyValue → Option Bool
  | .ofStr s => some (c.name == s)
  | .ofContestant c2 => some (c.name == c2.name)
  | .bare => none

/-- Embeds the fields of the `Match` class (one guy, one girl). -/
structure Match where
  guy : Contestant
  girl : Contestant
  deriving DecidableEq

/-- Embeds `Match.__init__`: the assert
`guy.gender_preference == girl.sex and girl.gender_preference == guy.sex`
demands that each preference equal the other contestant's sex verbatim; on
failure no `Match` is produced (`none`). -/
def Match.init (guy girl : Contestant) : Option Match :=
  if guy.gender_preference == girl.sex && girl.gender_preference == guy.sex then
    some ⟨guy, girl⟩
  else
    none

/-- Modelled from the spec (section 3, Pairing invariant): the two
preferences are mutually satisfiable when each participant's preference
matches the other's group label or is the "either"/"Both" value. -/
def mutually_satisfiable_spec (guy girl : Contestant) : Bool :=
  (guy.gender_preference == girl.sex || guy.gender_preference == "Both") &&
    (girl.gender_preference == guy.sex || girl.gender_preference == "Both")

/-- Embeds `Match.__getitem__`: index 0 returns the guy, index 1 the girl,
any other index fails the assert. -/
def Match.getItem (m : Match) (i : Nat) : Option Contestant :=
  if i = 0 then some m.guy else if i = 1 then some m.girl else none

/-- Embeds the `Match.idx` property: the pair of numerical indices. -/
def Match.idx (m : Match) : Nat × Nat := (m.guy.idx, m.girl.idx)

/-- Embeds the `Path` class: the collection of matches of one full matchup
(the source stores a `set`; the order is irrelevant to `to_array`, which
sorts). -/
structure Path where
  _matches : List Match
  deriving DecidableEq

/-- Embeds `Path.to_array`.  With two or more matches,
`sorted(self._matches, key=lambda x: x[0])` compares `Guy` objects with `<`,
which `Contestant` does not define, so Python raises `TypeError`.  With
exactly one match no comparison happens, but the comprehension collects the
`Girl` object `m[1]` (not its index) and `np.array(data, dtype=np.int8)`
fails to convert it to an integer.  Only the empty path converts, to the
empty array.  Raising is modelled as `none`. -/
def Path.to_array (p : Path) : Option Row :=
  match p._matches with
  | [] => some []
  | _ :: _ => none

/-- Embeds `Matrix._create_matrix`: the rows are all permutations of
`0..N-1` (`itertools.permutations(np.arange(N))`; the spec fixes no row
order, so the permutations are enumerated in `List.permutations'` order). -/
def Matrix.create_matrix (N : Nat) : Mat :=
  (List.range N).permutations'

/-- Embeds `Matrix.__init__`: unequal group sizes raise
`NotImplementedError` (modelled as `none`); otherwise the full matrix is
created. -/
def Matrix.init (n_guys n_girls : Nat) : Option Mat :=
  if n_guys ≠ n_girls then none else some (Matrix.create_matrix n_girls)

/-- Embeds the `Matrix.feasible_paths` property: `self._matrix.shape[0]`,
the number of surviving rows. -/
def Matrix.feasible_paths (m : Mat) : Nat := m.length

/-- Boolean column mask of the numpy expression
`self._matrix[:, a] == b`, for one row. -/
def col_eq (a b : Nat) (r : Row) : Bool := r.get? a == some b

/-- Position-wise agreement count of one row with a candidate path: its
entry of `np.equal(self._matrix, path).sum(axis=1)`. -/
def n_agree (r path : Row) : Nat :=
  (List.zip r path).countP fun q => q.1 == q.2

/-- Embeds `Matrix.drop_path`: rows equal to `path` are removed when any
exist. -/
def Matrix.drop_path (m : Mat) (path : Row) : Mat :=
  if 0 < m.countP (fun r => r == path) then
    m.filter fun r => !(r == path)
  else m

/-- Embeds `Matrix.drop_paths_containing_match` called with an index tuple:
rows whose column `a` equals `b` are removed when any exist. -/
def Matrix.drop_paths_containing_match (m : Mat) (a b : Nat) : Mat :=
  if 0 < m.countP (col_eq a b) then
    m.filter fun r => !col_eq a b r
  else m

/-- Embeds `Matrix.drop_paths_not_containing_match`: the matrix is replaced
by the rows whose column `a` equals `b`, but only when at least one such row
exists — the `if mask.sum() > 0` guard skips the assignment otherwise. -/
def Matrix.drop_paths_not_containing_match (m : Mat) (a b : Nat) : Mat :=
  if 0 < m.countP (col_eq a b) then
    m.filter (col_eq a b)
  else m

/-- Embeds `Matrix.drop_paths_not_containing_n_matches`: after
`assert n <= len(path)` (failure modelled as `none`; `n` may be negative,
hence `Int`), the rows whose agreement count with `path` equals `n` are the
mask, and `self._matrix = self._matrix[~mask]` removes exactly those rows
when any exist. -/
def Matrix.drop_paths_not_containing_n_matches (m : Mat) (path : Row)
    (n : Int) : Option Mat :=
  if n ≤ (path.length : Int) then
    some (if 0 < m.countP (fun r => ((n_agree r path : Int) == n)) then
            m.filter fun r => !((n_agree r path : Int) == n)
          else m)
  else none

/-- Embeds `Matrix._count_match_in_matrix`: the source builds the boolean
column mask `self._matrix[:, match[0]] == match[1]` and then evaluates
`np.equal(mask)` — the two-argument ufunc `np.equal` applied to a single
argument — which raises before anything is counted, so the call never
returns a number.  Raising is modelled as `none`. -/
def Matrix.count_match_in_matrix (m : Mat) (a b : Nat) : Option Nat :=
  let _mask := m.map (col_eq a b)
  none

/-- Embeds `Matrix.prob_match`: the (never produced) count divided by
`feasible_paths`. -/
def Matrix.prob_match (m : Mat) (a b : Nat) : Option ℚ :=
  (Matrix.count_match_in_matrix m a b).map fun c =>
    (c : ℚ) / (Matrix.feasible_paths m : ℚ)

/-! ### Helper lemmas -/

/-- Filtering by `p`, guarded or not, yields a sublist of the input. -/
theorem ite_filter_sublist (c : Prop) [Decidable c] (p : Row → Bool) (m : Mat) :
    (if c then m.filter p else m).Sublist m := by
  split
  · exact List.filter_sublist m
  · exact List.Sublist.refl m

/-- After removing the rows satisfying `p`, no row satisfies `p`. -/
theorem countP_filter_not (p : Row → Bool) (m : Mat) :
    (m.filter fun r => !p r).countP p = 0 := by
  rw [List.countP_filter]
  simp

/-- Keeping only the rows satisfying `p` preserves their count. -/
theorem countP_filter_self (p : Row → Bool) (m : Mat) :
    (m.filter p).countP p = m.countP p := by
  rw [List.countP_filter]
  simp

/-- Guarded removal of the rows satisfying `p` is idempotent. -/
theorem drop_mask_idem (p : Row → Bool) (m : Mat) :
    (if 0 < ((if 0 < m.countP p then m.filter (fun r => !p r) else m).countP p) then
        (if 0 < m.countP p then m.filter (fun r => !p r) else m).filter fun r => !p r
      else (if 0 < m.countP p then m.filter (fun r => !p r) else m)) =
      (if 0 < m.countP p then m.filter (fun r => !p r) else m) := by
  by_cases h : 0 < m.countP p
  · simp [h, countP_filter_not]
  · simp [h]

/-- Guarded restriction to the rows satisfying `p` is idempotent. -/
theorem keep_mask_idem (p : Row → Bool) (m : Mat) :
    (if 0 < ((if 0 < m.countP p then m.filter p else m).countP p) then
        (if 0 < m.countP p then m.filter p else m).filter p
      else (if 0 < m.countP p then m.filter p else m)) =
      (if 0 < m.countP p then m.filter p else m) := by
  by_cases h : 0 < m.countP p
  · simp [h, countP_filter_self, List.filter_filter]
  · simp [h]

/-! ### Claims -/

/-- C7: for every N, the engine constructed from two equal groups of size N
accepts the construction, holds N! feasible rows, and every row of the
constructed space is a permutation of `0..N-1`. -/
theorem init_space_is_all_permutations (N : Nat) :
    Matrix.init N N = some (Matrix.create_matrix N) ∧
      Matrix.feasible_paths (Matrix.create_matrix N) = N.factorial ∧
      ∀ r ∈ Matrix.create_matrix N, r.Perm (List.range N) := by
  refine ⟨by simp [Matrix.init], ?_, ?_⟩
  · have hperm := (List.permutations_perm_permutations' (List.range N)).length_eq
    simp only [Matrix.feasible_paths, Matrix.create_matrix, ← hperm,
      List.length_permutations, List.length_range]
  · intro r hr
    exact List.mem_permutations'.mp hr

/-- C7 witness: at N = 3 the space has 3! = 6 rows and the concrete row
`[1, 0, 2]` of the space is a permutation of `0, 1, 2`. -/
theorem init_space_is_all_permutations_witness :
    Matrix.feasible_paths (Matrix.create_matrix 3) = Nat.factorial 3 ∧
      ([1, 0, 2] : Row).Perm (List.range 3) :=
  ⟨(init_space_is_all_permutations 3).2.1,
   (init_space_is_all_permutations 3).2.2 [1, 0, 2] (by decide)⟩

/-- C10: contestant equality is by name alone — two contestants compare
equal exactly when their names are equal, whatever their sex, preference or
index; a contestant compares equal to a plain string equal to its name; and
comparison against a value that is neither a string nor carries a name
raises (`none`) instead of returning `false`. -/
theorem contestant_eq_by_name_only (c1 c2 : Contestant) (s : String) :
    (Contestant.eq c1 (PyValue.ofContestant c2) = some true ↔ c1.name = c2.name) ∧
      (Contestant.eq c1 (PyValue.ofStr s) = some true ↔ c1.name = s) ∧
      Contestant.eq c1 PyValue.bare = none := by
  refine ⟨?_, ?_, rfl⟩ <;> simp [Contestant.eq]

/-- C5 counterexample: a guy whose preference is "Both" paired with a girl
preferring "Male" is mutually satisfiable in the spec's sense, yet
`Match.__init__` rejects the pairing: its assert demands that each
preference equal the other's sex verbatim, so "Both" never passes. -/
theorem pairing_rejects_both_preference :
    mutually_satisfiable_spec (Guy 0 "Al" "Both") (Girl 0 "Bea") = true ∧
      Contestant.post_init_ok (Guy 0 "Al" "Both") = true ∧
      Match.init (Guy 0 "Al" "Both") (Girl 0 "Bea") = none := by
  decide

/-- C5 amended: constructing a pairing succeeds exactly when each
contestant's preference equals the other contestant's sex verbatim; the
legal preference value "Both" is rejected like any other mismatch. -/
theorem match_init_iff_exact_preference (guy girl : Contestant) :
    (Match.init guy girl).isSome = true ↔
      (guy.gender_preference = girl.sex ∧ girl.gender_preference = guy.sex) := by
  unfold Match.init
  split <;> rename_i h <;> simp_all

/-- C6 counterexample: on the fresh N = 2 space, `n_correct = -1` lies
outside `[0, N]`, yet the ceremony elimination is not rejected: the only
guard is `assert n <= len(path)`, which passes, and the call returns
normally. -/
theorem ceremony_accepts_negative_n_correct :
    Matrix.drop_paths_not_containing_n_matches (Matrix.create_matrix 2)
      [0, 1] (-1) = some (Matrix.create_matrix 2) := by
  decide

/-- C6 amended: only the upper bound of the precondition is enforced — a
call with `n_correct > N` fails before mutating the space, while a call with
`n_correct < 0` is accepted and leaves the surviving set unchanged (no row
has a negative agreement count, so nothing is dropped). -/
theorem ceremony_n_correct_bounds (m : Mat) (path : Row) (n : Int) :
    ((path.length : Int) < n →
        Matrix.drop_paths_not_containing_n_matches m path n = none) ∧
      (n < 0 →
        Matrix.drop_paths_not_containing_n_matches m path n = some m) := by
  constructor
  · intro hgt
    unfold Matrix.drop_paths_not_containing_n_matches
    rw [if_neg (by omega)]
  · intro hneg
    unfold Matrix.drop_paths_not_containing_n_matches
    rw [if_pos (by omega)]
    have hzero : m.countP (fun r => ((n_agree r path : Int) == n)) = 0 := by
      rw [List.countP_eq_zero]
      intro r _
      simp only [beq_iff_eq]
      omega
    simp [hzero]

/-- C6 witness: at the concrete space `[[0, 1], [1, 0]]` with candidate
`[0, 1]`, the call with `n_correct = 3 > N` fails and the call with
`n_correct = -1` returns the space unchanged. -/
theorem ceremony_n_correct_bounds_witness :
    Matrix.drop_paths_not_containing_n_matches [[0, 1], [1, 0]] [0, 1] 3 = none ∧
      Matrix.drop_paths_not_containing_n_matches [[0, 1], [1, 0]] [0, 1] (-1) =
        some [[0, 1], [1, 0]] :=
  ⟨(ceremony_n_correct_bounds [[0, 1], [1, 0]] [0, 1] 3).1 (by decide),
   (ceremony_n_correct_bounds [[0, 1], [1, 0]] [0, 1] (-1)).2 (by decide)⟩

/-- C1: on the fresh N = 2 space with candidate row `[0, 1]` and
`n_correct = 2`, the ceremony elimination keeps exactly the rows whose
agreement count differs from `n_correct`: the agreeing row `[0, 1]` is
dropped and `[1, 0]`, which agrees at 0 positions, survives — the opposite
of the claimed surviving set. -/
theorem ceremony_keeps_disagreeing_rows :
    Matrix.drop_paths_not_containing_n_matches (Matrix.create_matrix 2)
        [0, 1] 2 = some [[1, 0]] ∧
      n_agree [1, 0] [0, 1] = 0 ∧ n_agree [0, 1] [0, 1] = 2 := by
  decide

/-- C2: with a non-empty space (the fresh N = 2 space, 2 feasible rows) the
probability query still fails to return a number:
`_count_match_in_matrix` applies the two-argument ufunc `np.equal` to a
single argument and raises before dividing. -/
theorem prob_match_fails_on_nonempty_space :
    0 < Matrix.feasible_paths (Matrix.create_matrix 2) ∧
      Matrix.prob_match (Matrix.create_matrix 2) 0 0 = none := by
  exact ⟨by decide, rfl⟩

/-- C3: on the surviving set `{[1, 0]}` the confirmed pair `(0, 0)` matches
no row, so the claim demands an empty result; the `if mask.sum() > 0` guard
skips the assignment instead and the inconsistent row `[1, 0]` survives. -/
theorem confirmed_pair_empty_result_skipped :
    Matrix.drop_paths_not_containing_match [[1, 0]] 0 0 = [[1, 0]] ∧
      col_eq 0 0 [1, 0] = false := by
  decide

/-- C4: a validly constructed one-pair matchup (its `Match.__init__` assert
passes) fails to convert to its canonical row: `to_array` raises instead of
producing `[0]`. -/
theorem to_array_fails_on_valid_matchup :
    (Match.init (Guy 0 "Al") (Girl 0 "Bea")).isSome = true ∧
      Path.to_array ⟨[⟨Guy 0 "Al", Girl 0 "Bea"⟩]⟩ = none := by
  decide

/-- C8: every elimination operation only shrinks the space — the surviving
set after the call is a subset of the prior set and `feasible_paths` does
not grow; for the ceremony elimination the state after the call (unchanged
when the assert fails, `(·).getD m`) likewise only shrinks. -/
theorem eliminations_monotonic (m : Mat) (p : Row) (a b : Nat) (c : Row)
    (n : Int) :
    (Matrix.drop_path m p ⊆ m ∧
      Matrix.feasible_paths (Matrix.drop_path m p) ≤ Matrix.feasible_paths m) ∧
    (Matrix.drop_paths_containing_match m a b ⊆ m ∧
      Matrix.feasible_paths (Matrix.drop_paths_containing_match m a b) ≤
        Matrix.feasible_paths m) ∧
    (Matrix.drop_paths_not_containing_match m a b ⊆ m ∧
      Matrix.feasible_paths (Matrix.drop_paths_not_containing_match m a b) ≤
        Matrix.feasible_paths m) ∧
    ((Matrix.drop_paths_not_containing_n_matches m c n).getD m ⊆ m ∧
      Matrix.feasible_paths
          ((Matrix.drop_paths_not_containing_n_matches m c n).getD m) ≤
        Matrix.feasible_paths m) := by
  refine ⟨⟨?_, ?_⟩, ⟨?_, ?_⟩, ⟨?_, ?_⟩, ⟨?_, ?_⟩⟩
  · exact (ite_filter_sublist _ _ m).subset
  · exact (ite_filter_sublist _ _ m).length_le
  · exact (ite_filter_sublist _ _ m).subset
  · exact (ite_filter_sublist _ _ m).length_le
  · exact (ite_filter_sublist _ _ m).subset
  · exact (ite_filter_sublist _ _ m).length_le
  · unfold Matrix.drop_paths_not_containing_n_matches
    split
    · exact (ite_filter_sublist _ _ m).subset
    · exact fun r hr => hr
  · unfold Matrix.drop_paths_not_containing_n_matches
    split
    · exact (ite_filter_sublist _ _ m).length_le
    · exact le_refl _

/-- C9: re-applying the same evidence is a no-op — dropping the same denied
pair, keeping the same confirmed pair, or applying the same ceremony result
twice yields the same surviving set as applying it once (the ceremony
repetition is sequenced with `bind`, so a failed assert stays failed). -/
theorem eliminations_idempotent (m : Mat) (a b : Nat) (c : Row) (n : Int) :
    Matrix.drop_paths_containing_match
        (Matrix.drop_paths_containing_match m a b) a b =
      Matrix.drop_paths_containing_match m a b ∧
    Matrix.drop_paths_not_containing_match
        (Matrix.drop_paths_not_containing_match m a b) a b =
      Matrix.drop_paths_not_containing_match m a b ∧
    (Matrix.drop_paths_not_containing_n_matches m c n).bind
        (fun m2 => Matrix.drop_paths_not_containing_n_matches m2 c n) =
      Matrix.drop_paths_not_containing_n_matches m c n := by
  refine ⟨?_, ?_, ?_⟩
  · unfold Matrix.drop_paths_containing_match
    exact drop_mask_idem (col_eq a b) m
  · unfold Matrix.drop_paths_not_containing_match
    exact keep_mask_idem (col_eq a b) m
  · unfold Matrix.drop_paths_not_containing_n_matches
    by_cases hn : n ≤ (c.length : Int)
    · simp only [if_pos hn, Option.some_bind]
      exact congrArg some
        (drop_mask_idem (fun r => ((n_agree r c : Int) == n)) m)
    · simp [if_neg hn]

end AYTO
